import Mathlib

/-!
Shallow embedding of the `printer-module` HTTP-to-serial bridge
(`printer.js`, supporting `list-ports.js` and the mobile `index.tsx`):
the command encoders (`isHex`, hex decoding, base64 decoding,
`asciiToHex`), the serial-link lifecycle (`tryOpen`, close,
disconnect, the `opening` guard flag), and the HTTP endpoints
(`/open`, `/write-hex`, `/write-base64`, `/write-binary`,
`/print-voucher`), each translated directly from the source.
JavaScript strings are modelled as lists of UTF-16 code units,
buffers as lists of byte values.
-/

namespace PrinterBridge

/-- Code units of a JavaScript string (UTF-16 code units as naturals). -/
abbrev JSStr := List Nat

/-- Code units of a Lean string literal; all literals in the source are BMP
characters, for which scalar values and UTF-16 code units coincide. -/
def ofStr (s : String) : JSStr := s.data.map Char.toNat

/-- Value of one hexadecimal digit character, mirroring the character class
`[0-9a-fA-F]` of the regex in `isHex` and Node's hex decoder. -/
def hexDigitVal (c : Nat) : Option Nat :=
  if 48 ≤ c ∧ c ≤ 57 then some (c - 48)
  else if 97 ≤ c ∧ c ≤ 102 then some (c - 87)
  else if 65 ≤ c ∧ c ≤ 70 then some (c - 55)
  else none

/-- Whether a code unit is a hexadecimal digit character. -/
def isHexCU (c : Nat) : Bool := (hexDigitVal c).isSome

/-- Whether a code unit is an uppercase hexadecimal digit character. -/
def isUpperHexCU (c : Nat) : Bool :=
  (48 ≤ c && c ≤ 57) || (65 ≤ c && c ≤ 70)

/-- Node's `Buffer.from(s, 'hex')`: decode two characters per byte,
left to right, stopping at the first invalid pair or odd trailing
character. -/
def hexDecode : List Nat → List Nat
  | c1 :: c2 :: rest =>
    match hexDigitVal c1, hexDigitVal c2 with
    | some hi, some lo => (16 * hi + lo) :: hexDecode rest
    | _, _ => []
  | _ => []

/-- Values a JSON request field can hold (`undefined` for an absent key). -/
inductive JVal where
  | undef
  | null
  | str (s : JSStr)
  | num (n : Int)
  | boolean (b : Bool)
deriving DecidableEq

/-- Whether a `JVal` is a string (JavaScript `typeof v === 'string'`). -/
def JVal.isStr : JVal → Bool
  | .str _ => true
  | _ => false

/-- String content of a `JVal`, empty for non-strings. -/
def JVal.asStr : JVal → JSStr
  | .str s => s
  | _ => []

/-- JavaScript truthiness of a request field value. -/
def jsTruthy : JVal → Bool
  | .undef => false
  | .null => false
  | .str s => !s.isEmpty
  | .num n => n != 0
  | .boolean b => b

/-- Source `isHex(s)`:
`typeof s === 'string' && /^[0-9a-fA-F]+$/.test(s) && s.length % 2 === 0`.
The regex `+` requires at least one character. -/
def isHex (v : JVal) : Bool :=
  match v with
  | .str s => (!s.isEmpty) && s.all isHexCU && (s.length % 2 == 0)
  | _ => false

/-- Value of one base64 alphabet character, `none` for characters Node's
forgiving decoder skips. -/
def b64Val (c : Nat) : Option Nat :=
  if 65 ≤ c ∧ c ≤ 90 then some (c - 65)
  else if 97 ≤ c ∧ c ≤ 122 then some (c - 71)
  else if 48 ≤ c ∧ c ≤ 57 then some (c + 4)
  else if c = 43 then some 62
  else if c = 47 then some 63
  else none

/-- Reassemble bytes from 6-bit groups, as Node's base64 decoder does:
four groups give three bytes, a trailing three give two, a trailing
two give one. -/
def b64Groups : List Nat → List Nat
  | a :: b :: c :: d :: rest =>
    (a * 4 + b / 16) :: ((b % 16) * 16 + c / 4) :: ((c % 4) * 64 + d) :: b64Groups rest
  | [a, b] => [a * 4 + b / 16]
  | [a, b, c] => [a * 4 + b / 16, (b % 16) * 16 + c / 4]
  | _ => []

/-- Node's `Buffer.from(s, 'base64')`: drop non-alphabet characters
(including padding), then decode 6-bit groups. -/
def b64Decode (s : JSStr) : List Nat := b64Groups (s.filterMap b64Val)

/-- Fuelled base of JavaScript `n.toString(16)`: least-significant
digit first, lowercase, structurally recursive so the kernel can
evaluate it. With fuel at least `n` it computes all digits. -/
def toHexRevF : Nat → Nat → List Nat
  | 0, n => [hexDigitChar n]
  | fuel + 1, n =>
    if n < 16 then [hexDigitChar n]
    else hexDigitChar (n % 16) :: toHexRevF fuel (n / 16)
where
  /-- Code unit of one lowercase hexadecimal digit. -/
  hexDigitChar (d : Nat) : Nat := if d < 10 then 48 + d else 87 + d

/-- JavaScript `n.toString(16)` for a nonnegative integer: lowercase
hexadecimal digits, most significant first. -/
def jsToString16 (n : Nat) : JSStr := (toHexRevF n n).reverse

/-- JavaScript `s.padStart(2, '0')`. -/
def padStart2 (s : JSStr) : JSStr :=
  if s.length < 2 then List.replicate (2 - s.length) 48 ++ s else s

/-- JavaScript `String.prototype.toUpperCase` restricted to ASCII, which is
all the hex-digit output of `asciiToHex` ever contains. -/
def toUpperCU (c : Nat) : Nat := if 97 ≤ c ∧ c ≤ 122 then c - 32 else c

/-- Source `asciiToHex(str)` (printer.js lines 165-173): per character,
`charCodeAt(i).toString(16).padStart(2, '0')`, concatenated, then the
whole string uppercased. -/
def asciiToHex (s : JSStr) : JSStr :=
  ((s.map fun c => padStart2 (jsToString16 c)).flatten).map toUpperCU

/-- Contribution of a single character to `asciiToHex`. -/
def charHex (c : Nat) : JSStr := (padStart2 (jsToString16 c)).map toUpperCU

/-- Normalized outcome of a write-style endpoint: the JSON success body
(`bytes`) or an error response (`status`, message), `crash` for an
exception thrown inside the async handler (no response is produced). -/
inductive WResp where
  | ok (bytes : Nat)
  | err (status : Nat) (msg : String)
  | crash
deriving DecidableEq

/-- Shared tail of every write endpoint: `port.write(buf, cb)` then
`port.drain(cb)`; the buffer is handed to the device in all three
outcomes, so it is recorded in the write trace unconditionally. -/
def writeFlow (buf : List Nat) (wOk dOk : Bool) : WResp × List (List Nat) :=
  if !wOk then (.err 500 "write error", [buf])
  else if !dOk then (.err 500 "drain error", [buf])
  else (.ok buf.length, [buf])

/-- `POST /write-hex` (printer.js lines 135-147). `lOpen` is
`port && port.isOpen`; `wOk`/`dOk` are the outcomes of the underlying
write and drain callbacks. Returns the response and the list of buffers
passed to `port.write`. -/
def writeHexEP (hex : JVal) (lOpen wOk dOk : Bool) : WResp × List (List Nat) :=
  if !isHex hex then (.err 400 "invalid hex", [])
  else if !lOpen then (.err 503 "serial not open", [])
  else writeFlow (hexDecode hex.asStr) wOk dOk

/-- `POST /write-base64` (printer.js lines 150-162). A truthy non-string
`b64` makes `Buffer.from(b64, 'base64')` throw, which the async handler
does not catch. -/
def writeB64EP (b64 : JVal) (lOpen wOk dOk : Bool) : WResp × List (List Nat) :=
  if !jsTruthy b64 then (.err 400 "missing b64", [])
  else if !lOpen then (.err 503 "serial not open", [])
  else
    match b64 with
    | .str s => writeFlow (b64Decode s) wOk dOk
    | _ => (.crash, [])

/-- Body of a raw-binary request after `express.raw`: `absent` when no
octet-stream body was parsed (`req.body` is not a Buffer). -/
inductive BinBody where
  | absent
  | buf (bs : List Nat)
deriving DecidableEq

/-- `POST /write-binary` (printer.js lines 267-278), including the
`express.raw` size limit, which rejects oversized bodies with HTTP 413
before the handler runs. -/
def writeBinaryEP (lim : Nat) (body : BinBody) (lOpen wOk dOk : Bool) :
    WResp × List (List Nat) :=
  match body with
  | .absent => (.err 400 "missing binary body", [])
  | .buf bs =>
    if lim < bs.length then (.err 413 "request entity too large", [])
    else if !lOpen then (.err 503 "serial not open", [])
    else writeFlow bs wOk dOk

/-- Static configuration of the bridge process: `SERIAL_PATH` and `BAUD`
from the environment. -/
structure Config where
  serialPath : JSStr
  baud : Nat
deriving DecidableEq

/-- Mutable state of the serial-link manager: the module-level `opening`
flag and `port` variable (`portPresent` is `port !== null`, `portOpen` is
`port.isOpen`, `portPath`/`portBaud` the constructor arguments of the
current `SerialPort`), plus a ghost count of OS handles currently held. -/
structure BState where
  opening : Bool
  portPresent : Bool
  portOpen : Bool
  portPath : JSStr
  portBaud : Nat
  handles : Nat
deriving DecidableEq

/-- Initial state at process start: no port, not opening. -/
def initB : BState :=
  { opening := false, portPresent := false, portOpen := false
    portPath := [], portBaud := 0, handles := 0 }

/-- Atomic events of the link lifecycle: the entry of `tryOpen` up to the
`port.open` call (`openBegin`), the resolution of that call
(`openEnd`), the `/close` handler body (`closeReq`), and the
asynchronous `'close'` event from the OS (`disconnect`). -/
inductive Ev where
  | openBegin (path : JSStr)
  | openEnd (ok : Bool)
  | closeReq
  | disconnect
deriving DecidableEq

/-- One step of the link manager. The second component lists handle
acquisition attempts made in the step, as `(path, baudRate)` pairs taken
from the `SerialPort` constructor call `new SerialPort({ path,
baudRate: BAUD, autoOpen: false })`; note the source passes the
configured `BAUD`, never a caller-supplied rate. -/
def step (cfg : Config) (s : BState) : Ev → BState × List (JSStr × Nat)
  | .openBegin p =>
    if s.opening || (s.portPresent && s.portOpen) then (s, [])
    else
      ({ opening := true, portPresent := true, portOpen := false
         portPath := p, portBaud := cfg.baud, handles := s.handles },
       [(p, cfg.baud)])
  | .openEnd ok =>
    if s.opening then
      if ok then
        ({ s with opening := false, portOpen := true, handles := s.handles + 1 }, [])
      else
        ({ s with opening := false, portPresent := false, portOpen := false }, [])
    else (s, [])
  | .closeReq =>
    if s.portPresent && s.portOpen then
      ({ s with portPresent := false, portOpen := false, handles := s.handles - 1 }, [])
    else (s, [])
  | .disconnect =>
    if s.portOpen then
      ({ s with portPresent := false, portOpen := false, handles := s.handles - 1 }, [])
    else (s, [])

/-- State after running a trace of events from the initial state. -/
def runEvents (cfg : Config) (evs : List Ev) : BState :=
  evs.foldl (fun st e => (step cfg st e).1) initB

/-- Source `tryOpen(path)` (printer.js lines 48-67), run to completion:
guarded no-op when already opening or already open; otherwise a
construction-and-open attempt whose outcome is `osOk`. Returns the new
state and the acquisition attempts made. -/
def tryOpenF (cfg : Config) (s : BState) (p : JSStr) (osOk : Bool) :
    BState × List (JSStr × Nat) :=
  if s.opening || (s.portPresent && s.portOpen) then (s, [])
  else
    let r1 := step cfg s (.openBegin p)
    let r2 := step cfg r1.1 (.openEnd osOk)
    (r2.1, r1.2 ++ r2.2)

/-- JSON body of the `/open` response. -/
structure OpenResp where
  ok : Bool
  opened : Bool
  rpath : JSStr
  rbaud : Nat
deriving DecidableEq

/-- Result of the `/open` endpoint: response, final state, acquisition
attempts. -/
structure OpenOut where
  resp : OpenResp
  state : BState
  attempts : List (JSStr × Nat)
deriving DecidableEq

/-- `const p = path || SERIAL_PATH` of the `/open` handler (an empty
string is falsy). -/
def resolvePath (cfg : Config) : Option JSStr → JSStr
  | some q => if q.isEmpty then cfg.serialPath else q
  | none => cfg.serialPath

/-- `const b = parseInt(baud || BAUD, 10)` of the `/open` handler for a
numeric `baud` field (`0` is falsy). -/
def resolveBaud (cfg : Config) : Option Nat → Nat
  | some n => if n = 0 then cfg.baud else n
  | none => cfg.baud

/-- `POST /open` (printer.js lines 109-119): resolve path and baud from
the body, `await tryOpen(p)`, then answer
`{ ok: true, opened: !!(port && port.isOpen), path: p, baud: b }`.
`tryOpen` never throws (it catches internally), so the handler's 500
branch is unreachable. -/
def openEndpoint (cfg : Config) (s : BState) (path : Option JSStr)
    (baud : Option Nat) (osOk : Bool) : OpenOut :=
  let p := resolvePath cfg path
  let b := resolveBaud cfg baud
  let r := tryOpenF cfg s p osOk
  { resp := { ok := true, opened := r.1.portPresent && r.1.portOpen
              rpath := p, rbaud := b }
    state := r.1, attempts := r.2 }

/-- JavaScript `s.slice(a, b)` for nonnegative indices `a ≤ b`, as used at
`String(voucher.createAt).slice(11, 19)`: clamps silently, never fails. -/
def jsSlice (s : JSStr) (a b : Nat) : JSStr := (s.drop a).take (b - a)

/-- Caller-supplied `station` object: every field optional. -/
structure StationB where
  name : Option JSStr := none
  address : Option JSStr := none
  city : Option JSStr := none
  state : Option JSStr := none
  phone1 : Option JSStr := none
  phone2 : Option JSStr := none
deriving DecidableEq

/-- Caller-supplied `voucher` (or flattened `data`) object: every field
optional. -/
structure VoucherB where
  dailyReportDate : Option JSStr := none
  createAt : Option JSStr := none
  nozzleNo : Option JSStr := none
  vocono : Option JSStr := none
  salePrice : Option JSStr := none
  saleLiter : Option JSStr := none
  totalPrice : Option JSStr := none
  fuelType : Option JSStr := none
deriving DecidableEq

/-- Request body of `/print-voucher`: the three keys the handler reads,
plus a count of any other keys (which only matter for `Object.keys`). -/
structure BodyB where
  station : Option StationB := none
  voucher : Option VoucherB := none
  data : Option VoucherB := none
  otherKeys : Nat := 0
deriving DecidableEq

/-- Empty request objects. -/
def emptyStationB : StationB := {}

def emptyVoucherB : VoucherB := {}

def emptyBodyB : BodyB := {}

/-- `Object.keys(req.body).length` for a parsed body. -/
def keyCount (b : BodyB) : Nat :=
  (if b.station.isSome then 1 else 0) + (if b.voucher.isSome then 1 else 0) +
    (if b.data.isSome then 1 else 0) + b.otherKeys

/-- Fully resolved station record after the `Object.assign` merge. -/
structure StationR where
  name : JSStr
  address : JSStr
  city : JSStr
  state : JSStr
  phone1 : JSStr
  phone2 : JSStr
deriving DecidableEq

/-- Fully resolved voucher record after the `Object.assign` merge. -/
structure VoucherR where
  dailyReportDate : JSStr
  createAt : JSStr
  nozzleNo : JSStr
  vocono : JSStr
  salePrice : JSStr
  saleLiter : JSStr
  totalPrice : JSStr
  fuelType : JSStr
deriving DecidableEq

/-- The `defaultStation` literal of the handler. -/
def defStationR : StationR :=
  { name := ofStr "My Station", address := ofStr "123 Main St"
    city := ofStr "Yangon", state := ofStr "MM"
    phone1 := ofStr "09-123456789", phone2 := ofStr "09-987654321" }

/-- The `defaultVoucher` literal of the handler; `dailyReportDate` and
`createAt` come from `new Date()` at request time, so they are
parameters. -/
def defVoucherR (nowDate nowISO : JSStr) : VoucherR :=
  { dailyReportDate := nowDate, createAt := nowISO
    nozzleNo := ofStr "01", vocono := ofStr "VC123456"
    salePrice := ofStr "2530", saleLiter := ofStr "10.50"
    totalPrice := ofStr "26565", fuelType := ofStr "OCTANE 95" }

/-- `Object.assign({}, defaultStation, body.station || {})`: a present key
of the request wins, otherwise the default. -/
def mergeStation (d : StationR) (ob : Option StationB) : StationR :=
  let s := ob.getD emptyStationB
  { name := s.name.getD d.name, address := s.address.getD d.address
    city := s.city.getD d.city, state := s.state.getD d.state
    phone1 := s.phone1.getD d.phone1, phone2 := s.phone2.getD d.phone2 }

/-- Per-field result of `Object.assign({}, default, voucher, data)`:
`data` wins over `voucher`, which wins over the default. -/
def pick3 (a b : Option JSStr) (c : JSStr) : JSStr :=
  match a with
  | some x => x
  | none => b.getD c

/-- `Object.assign({}, defaultVoucher, body.voucher || {}, body.data || {})`. -/
def mergeVoucher (d : VoucherR) (ov od : Option VoucherB) : VoucherR :=
  let v := ov.getD emptyVoucherB
  let t := od.getD emptyVoucherB
  { dailyReportDate := pick3 t.dailyReportDate v.dailyReportDate d.dailyReportDate
    createAt := pick3 t.createAt v.createAt d.createAt
    nozzleNo := pick3 t.nozzleNo v.nozzleNo d.nozzleNo
    vocono := pick3 t.vocono v.vocono d.vocono
    salePrice := pick3 t.salePrice v.salePrice d.salePrice
    saleLiter := pick3 t.saleLiter v.saleLiter d.saleLiter
    totalPrice := pick3 t.totalPrice v.totalPrice d.totalPrice
    fuelType := pick3 t.fuelType v.fuelType d.fuelType }

/-- The dashed separator chunk of the template. -/
def dashLine : JSStr :=
  ofStr "2D2D2D2D2D2D2D2D2D2D2D2D2D2D2D2D2D2D2D2D2D2D2D2D2D2D2D2D0A"

/-- The `hexChunks` template of `/print-voucher` (printer.js lines
225-251), joined with the empty separator: literal ESC/POS hex segments
interleaved with the `asciiToHex`-encoded fields, with the time taken
by `String(voucher.createAt).slice(11, 19)`. -/
def buildVoucherHex (st : StationR) (v : VoucherR) : JSStr :=
  ofStr "1B401B6101" ++ asciiToHex st.name ++ ofStr "0A" ++
  (asciiToHex (st.address ++ ofStr ", " ++ st.city ++ ofStr ", " ++ st.state) ++ ofStr "0A") ++
  (asciiToHex st.phone1 ++ ofStr "2C20" ++ asciiToHex st.phone2 ++ ofStr "0A") ++
  ofStr "1B6100" ++
  dashLine ++
  (ofStr "564F434F4E4F202020" ++ asciiToHex v.vocono ++ ofStr "0A") ++
  (ofStr "444154452020202020" ++ asciiToHex v.dailyReportDate ++ ofStr "0A") ++
  (ofStr "54494D452020202020" ++ asciiToHex (jsSlice v.createAt 11 19) ++ ofStr "0A") ++
  (ofStr "4E4F5A5A4C45202020" ++ asciiToHex v.nozzleNo ++ ofStr "0A") ++
  dashLine ++
  (ofStr "4655454C20202020" ++ asciiToHex v.fuelType ++ ofStr "0A") ++
  (ofStr "4241534520505249434520202020" ++ asciiToHex v.salePrice ++
    ofStr "204D4D4B202F204C495445520A") ++
  (ofStr "53414C45204C4954455253202020" ++ asciiToHex v.saleLiter ++ ofStr "204C490A") ++
  (ofStr "544F54414C202020202020202020" ++ asciiToHex v.totalPrice ++ ofStr "204D4D4B0A") ++
  ofStr "202020202020202020202020202028494E434C555349564520544158290A" ++
  dashLine ++
  ofStr "1B6101" ++
  ofStr "5448414E4B20594F5520464F52205649534954494E470A" ++
  ofStr "1B6401" ++
  ofStr "1D564100"

/-- Response of `/print-voucher`. -/
inductive PVResp where
  | ok (bytes : Nat) (usedDefaults : Bool)
  | err (status : Nat) (msg : String)
deriving DecidableEq

/-- Whether a `/print-voucher` response is the success body. -/
def PVResp.isOk : PVResp → Bool
  | .ok _ _ => true
  | _ => false

/-- The `usedDefaults` field of a successful `/print-voucher` response. -/
def PVResp.udFlag : PVResp → Option Bool
  | .ok _ u => some u
  | _ => none

/-- `POST /print-voucher` (printer.js lines 182-264): reject when the
port is not open, merge defaults under the caller's fields, assemble
and hex-decode the template, write it, and report
`usedDefaults: !req.body || Object.keys(req.body).length === 0`. -/
def printVoucherEP (body : Option BodyB) (nowDate nowISO : JSStr)
    (lOpen wOk dOk : Bool) : PVResp × List (List Nat) :=
  if !lOpen then (.err 503 "serial not open", [])
  else
    let b := body.getD emptyBodyB
    let st := mergeStation defStationR b.station
    let v := mergeVoucher (defVoucherR nowDate nowISO) b.voucher b.data
    let buf := hexDecode (buildVoucherHex st v)
    let ud := body.isNone || (keyCount b == 0)
    if !wOk then (.err 500 "write error", [buf])
    else if !dOk then (.err 500 "drain error", [buf])
    else (.ok buf.length ud, [buf])

/-- Concrete prefix of the assembled hex text when station and voucher
fields are all defaults: everything before the date field. -/
def headHex : JSStr :=
  ofStr "1B401B6101" ++ asciiToHex (ofStr "My Station") ++ ofStr "0A" ++
  (asciiToHex (ofStr "123 Main St" ++ ofStr ", " ++ ofStr "Yangon" ++ ofStr ", " ++ ofStr "MM") ++
    ofStr "0A") ++
  (asciiToHex (ofStr "09-123456789") ++ ofStr "2C20" ++ asciiToHex (ofStr "09-987654321") ++
    ofStr "0A") ++
  ofStr "1B6100" ++
  dashLine ++
  (ofStr "564F434F4E4F202020" ++ asciiToHex (ofStr "VC123456") ++ ofStr "0A") ++
  ofStr "444154452020202020"

/-- Concrete segment between the date field and the time field. -/
def midHex : JSStr := ofStr "0A" ++ ofStr "54494D452020202020"

/-- Concrete tail of the assembled hex text after the time field, when
the remaining voucher fields are all defaults. -/
def tailHex : JSStr :=
  ofStr "0A" ++
  (ofStr "4E4F5A5A4C45202020" ++ asciiToHex (ofStr "01") ++ ofStr "0A") ++
  dashLine ++
  (ofStr "4655454C20202020" ++ asciiToHex (ofStr "OCTANE 95") ++ ofStr "0A") ++
  (ofStr "4241534520505249434520202020" ++ asciiToHex (ofStr "2530") ++
    ofStr "204D4D4B202F204C495445520A") ++
  (ofStr "53414C45204C4954455253202020" ++ asciiToHex (ofStr "10.50") ++ ofStr "204C490A") ++
  (ofStr "544F54414C202020202020202020" ++ asciiToHex (ofStr "26565") ++ ofStr "204D4D4B0A") ++
  ofStr "202020202020202020202020202028494E434C555349564520544158290A" ++
  dashLine ++
  ofStr "1B6101" ++
  ofStr "5448414E4B20594F5520464F52205649534954494E470A" ++
  ofStr "1B6401" ++
  ofStr "1D564100"

/-! ### Helper lemmas about the hex codec -/

theorem hexDecode_append (A B : List Nat) (hall : A.all isHexCU = true)
    (hev : A.length % 2 = 0) : hexDecode (A ++ B) = hexDecode A ++ hexDecode B := by
  match A, hall, hev with
  | [], _, _ => simp [hexDecode]
  | [c], _, hev => simp at hev
  | c1 :: c2 :: rest, hall, hev =>
    simp only [List.all_cons, Bool.and_eq_true, isHexCU] at hall
    obtain ⟨h1, h2, hrest⟩ := hall
    obtain ⟨v1, hv1⟩ := Option.isSome_iff_exists.mp h1
    obtain ⟨v2, hv2⟩ := Option.isSome_iff_exists.mp h2
    have hev' : rest.length % 2 = 0 := by
      simp only [List.length_cons] at hev
      omega
    have hr : hexDecode (rest ++ B) = hexDecode rest ++ hexDecode B :=
      hexDecode_append rest B (by simpa [isHexCU] using hrest) hev'
    simp [hexDecode, hv1, hv2, hr]

theorem hexDecode_length (A : List Nat) (hall : A.all isHexCU = true)
    (hev : A.length % 2 = 0) : (hexDecode A).length = A.length / 2 := by
  match A, hall, hev with
  | [], _, _ => simp [hexDecode]
  | [c], _, hev => simp at hev
  | c1 :: c2 :: rest, hall, hev =>
    simp only [List.all_cons, Bool.and_eq_true, isHexCU] at hall
    obtain ⟨h1, h2, hrest⟩ := hall
    obtain ⟨v1, hv1⟩ := Option.isSome_iff_exists.mp h1
    obtain ⟨v2, hv2⟩ := Option.isSome_iff_exists.mp h2
    have hev' : rest.length % 2 = 0 := by
      simp only [List.length_cons] at hev
      omega
    have hr : (hexDecode rest).length = rest.length / 2 :=
      hexDecode_length rest (by simpa [isHexCU] using hrest) hev'
    simp only [hexDecode, hv1, hv2, List.length_cons, hr]
    omega

/-! ### Helper lemmas about `asciiToHex` -/

theorem asciiToHex_eq_flatten (s : JSStr) :
    asciiToHex s = (s.map charHex).flatten := by
  rw [asciiToHex, List.map_flatten, List.map_map]
  rfl

theorem toHexRevF_len_pos (f n : Nat) : 1 ≤ (toHexRevF f n).length := by
  cases f with
  | zero => simp [toHexRevF]
  | succ f =>
    simp only [toHexRevF]
    split <;> simp

theorem toHexRevF_big (f n : Nat) (hn : 16 ≤ n) :
    toHexRevF (f + 1) n = toHexRevF.hexDigitChar (n % 16) :: toHexRevF f (n / 16) := by
  simp only [toHexRevF]
  rw [if_neg (by omega)]

theorem toHexRevF_len2 (f n : Nat) (hf : 1 ≤ f) (hn : 16 ≤ n) :
    2 ≤ (toHexRevF f n).length := by
  match f, hf with
  | f + 1, _ =>
    rw [toHexRevF_big f n hn]
    have := toHexRevF_len_pos f (n / 16)
    simp only [List.length_cons]
    omega

theorem toHexRevF_len3 (f n : Nat) (hf : 2 ≤ f) (hn : 256 ≤ n) :
    3 ≤ (toHexRevF f n).length := by
  match f, hf with
  | f + 1, _ =>
    rw [toHexRevF_big f n (by omega)]
    have h16 : 16 ≤ n / 16 := by omega
    have := toHexRevF_len2 f (n / 16) (by omega) h16
    simp only [List.length_cons]
    omega

theorem charHex_len_big (c : Nat) (hc : 256 ≤ c) : 2 < (charHex c).length := by
  have h3 : 3 ≤ (toHexRevF c c).length := toHexRevF_len3 c c (by omega) hc
  have hlen : (jsToString16 c).length = (toHexRevF c c).length := by
    simp [jsToString16]
  have hpad : padStart2 (jsToString16 c) = jsToString16 c := by
    rw [padStart2, if_neg (by omega)]
  simp only [charHex, hpad, List.length_map]
  omega

set_option maxRecDepth 16384 in
theorem charHex_small (c : Nat) (hc : c < 256) :
    (charHex c).length = 2 ∧ (charHex c).all isUpperHexCU = true ∧
      hexDecode (charHex c) = [c] := by
  revert hc
  revert c
  decide

/-! ### Helper lemmas about the link-state invariant -/

/-- Inductive invariant of the link manager: the ghost handle count
matches the open flag, and while `opening` is set the port object
exists but is not yet open. -/
def invB (s : BState) : Prop :=
  (s.portOpen = false → s.handles = 0) ∧
    (s.portOpen = true → s.handles = 1) ∧
    (s.opening = true → s.portOpen = false ∧ s.portPresent = true) ∧
    (s.portPresent = false → s.portOpen = false)

theorem invB_init : invB initB := by
  simp [invB, initB]

theorem invB_step (cfg : Config) (s : BState) (e : Ev) (h : invB s) :
    invB (step cfg s e).1 := by
  obtain ⟨op, pp, po, pa, pb, hd⟩ := s
  obtain ⟨h1, h2, h3, h4⟩ := h
  simp only [invB] at h1 h2 h3 h4 ⊢
  cases e with
  | openBegin p =>
    cases op <;> cases pp <;> cases po <;> (try simp at h1 h2 h3 h4) <;>
      simp [step] <;> omega
  | openEnd ok =>
    cases op <;> cases ok <;> cases pp <;> cases po <;> (try simp at h1 h2 h3 h4) <;>
      simp [step] <;> omega
  | closeReq =>
    cases op <;> cases pp <;> cases po <;> (try simp at h1 h2 h3 h4) <;>
      simp [step] <;> omega
  | disconnect =>
    cases op <;> cases pp <;> cases po <;> (try simp at h1 h2 h3 h4) <;>
      simp [step] <;> omega

theorem invB_foldl (cfg : Config) (evs : List Ev) (s : BState) (h : invB s) :
    invB (evs.foldl (fun st e => (step cfg st e).1) s) := by
  induction evs generalizing s with
  | nil => exact h
  | cons e evs ih => exact ih _ (invB_step cfg s e h)

theorem invB_run (cfg : Config) (evs : List Ev) : invB (runEvents cfg evs) :=
  invB_foldl cfg evs initB invB_init

/-! ### Helper lemmas about the voucher template -/

theorem buildVoucherHex_default (dr ca : JSStr) :
    buildVoucherHex defStationR (defVoucherR dr ca) =
      headHex ++ (asciiToHex dr ++ (midHex ++ (asciiToHex (jsSlice ca 11 19) ++ tailHex))) := by
  simp [buildVoucherHex, defStationR, defVoucherR, headHex, midHex, tailHex, List.append_assoc]

theorem printVoucherEP_none (nd ni : JSStr) :
    printVoucherEP none nd ni true true true =
      (.ok (hexDecode (buildVoucherHex defStationR (defVoucherR nd ni))).length true,
       [hexDecode (buildVoucherHex defStationR (defVoucherR nd ni))]) :=
  rfl

set_option maxRecDepth 100000 in
theorem headHex_valid : headHex.all isHexCU = true ∧ headHex.length % 2 = 0 := by
  decide

set_option maxRecDepth 100000 in
theorem headHex_decoded :
    0 < (hexDecode headHex).length ∧ ofStr "My Station" <:+: hexDecode headHex ∧
      ofStr "VC123456" <:+: hexDecode headHex := by
  decide

/-! ### Claim theorems -/

/-- Claim C1 (confirmed): every write command with a valid payload
(`write-hex` with a string passing `isHex`, `write-base64` with a truthy
payload, `write-binary` with a parsed buffer within the size limit)
against a closed link fails with HTTP 503 `serial not open` and hands no
buffer to the device. -/
theorem claim1_write_on_closed_link :
    (∀ (v : JVal) (wOk dOk : Bool), isHex v = true →
        writeHexEP v false wOk dOk = (.err 503 "serial not open", [])) ∧
    (∀ (v : JVal) (wOk dOk : Bool), jsTruthy v = true →
        writeB64EP v false wOk dOk = (.err 503 "serial not open", [])) ∧
    (∀ (lim : Nat) (bs : List Nat) (wOk dOk : Bool), bs.length ≤ lim →
        writeBinaryEP lim (.buf bs) false wOk dOk = (.err 503 "serial not open", [])) := by
  refine ⟨?_, ?_, ?_⟩
  · intro v w d hv
    simp [writeHexEP, hv]
  · intro v w d hv
    simp [writeB64EP, hv]
  · intro lim bs w d hl
    simp only [writeBinaryEP]
    rw [if_neg (by omega)]
    simp

/-- Witness for C1 at the concrete payloads `"1B40"`, `"SGVsbG8="` and the
two-byte buffer `1B 40`. -/
theorem claim1_write_on_closed_link_witness :
    writeHexEP (.str (ofStr "1B40")) false true true = (.err 503 "serial not open", []) ∧
    writeB64EP (.str (ofStr "SGVsbG8=")) false true true = (.err 503 "serial not open", []) ∧
    writeBinaryEP 2097152 (.buf [27, 64]) false true true = (.err 503 "serial not open", []) :=
  ⟨claim1_write_on_closed_link.1 _ true true (by decide),
   claim1_write_on_closed_link.2.1 _ true true (by decide),
   claim1_write_on_closed_link.2.2 _ _ true true (by decide)⟩

/-- Counterexample to claim C5 as stated: the empty string consists only
of hexadecimal digit characters (vacuously) and has even length, yet
`isHex` rejects it (the regex `+` demands a character) and `write-hex`
answers `invalid hex` instead of succeeding with zero bytes. -/
theorem claim5_empty_hex_counterexample :
    (([] : JSStr).all isHexCU = true) ∧ (([] : JSStr).length % 2 = 0) ∧
      isHex (.str []) = false ∧
      writeHexEP (.str []) true true true = (.err 400 "invalid hex", []) := by
  decide

/-- Claim C5 (corrected): every NON-EMPTY even-length string of
hexadecimal digit characters passes `isHex` and `write-hex` transmits
its decoding, reporting half the string length as the byte count; every
odd-length or non-hex string and every non-string value fails with
`invalid hex` and transmits nothing. -/
theorem claim5_hex_validation_amended :
    (∀ s : JSStr, s ≠ [] → s.all isHexCU = true → s.length % 2 = 0 →
        isHex (.str s) = true ∧
        writeHexEP (.str s) true true true = (.ok (s.length / 2), [hexDecode s])) ∧
    (∀ (s : JSStr) (lOpen wOk dOk : Bool), s.length % 2 = 1 ∨ s.all isHexCU = false →
        writeHexEP (.str s) lOpen wOk dOk = (.err 400 "invalid hex", [])) ∧
    (∀ (v : JVal) (lOpen wOk dOk : Bool), v.isStr = false →
        writeHexEP v lOpen wOk dOk = (.err 400 "invalid hex", [])) := by
  refine ⟨?_, ?_, ?_⟩
  · intro s hne hall hev
    have hhex : isHex (.str s) = true := by
      simp [isHex, hall, hev, List.isEmpty_iff, hne]
    refine ⟨hhex, ?_⟩
    simp [writeHexEP, hhex, JVal.asStr, writeFlow, hexDecode_length s hall hev]
  · intro s lo w d hbad
    have hhex : isHex (.str s) = false := by
      rcases hbad with hodd | hnh
      · simp [isHex, hodd]
      · simp [isHex, hnh]
    simp [writeHexEP, hhex]
  · intro v lo w d hns
    cases v <;> simp_all [isHex, writeHexEP, JVal.isStr]

/-- Witness for C5 (amended) at `"1B40"` (valid, two bytes), `"A"`
(odd length) and the number `5` (non-string). -/
theorem claim5_hex_validation_amended_witness :
    (isHex (.str (ofStr "1B40")) = true ∧
      writeHexEP (.str (ofStr "1B40")) true true true =
        (.ok ((ofStr "1B40").length / 2), [hexDecode (ofStr "1B40")])) ∧
    writeHexEP (.str (ofStr "A")) true true true = (.err 400 "invalid hex", []) ∧
    writeHexEP (.num 5) true true true = (.err 400 "invalid hex", []) :=
  ⟨claim5_hex_validation_amended.1 _ (by decide) (by decide) (by decide),
   claim5_hex_validation_amended.2.1 _ true true true (Or.inl (by decide)),
   claim5_hex_validation_amended.2.2 _ true true true (by decide)⟩

/-- Counterexample to claim C6 as stated: the character with code point
0x100 is encoded by `asciiToHex` as the THREE digits `100` — not as two
digits, not truncated to the low byte (`00`), and not rejected. -/
theorem claim6_high_codepoint_counterexample :
    asciiToHex [256] = ofStr "100" ∧ (asciiToHex [256]).length ≠ 2 ∧
      asciiToHex [256] ≠ ofStr "00" := by
  decide

/-- Claim C6 (corrected): `asciiToHex` concatenates a per-character
encoding; a character with code point at most 0xFF contributes exactly
two uppercase hexadecimal digits that decode back to its code point,
but a code point above 0xFF contributes MORE than two digits (its full
hexadecimal representation) — neither truncation to the low byte nor
rejection. -/
theorem claim6_ascii_hex_amended :
    (∀ s : JSStr, asciiToHex s = (s.map charHex).flatten) ∧
    (∀ c : Nat, c < 256 →
        (charHex c).length = 2 ∧ (charHex c).all isUpperHexCU = true ∧
          hexDecode (charHex c) = [c]) ∧
    (∀ c : Nat, 256 ≤ c → 2 < (charHex c).length) :=
  ⟨asciiToHex_eq_flatten, charHex_small, charHex_len_big⟩

/-- Witness for C6 (amended) at the characters `A` (0x41) and 0x100. -/
theorem claim6_ascii_hex_amended_witness :
    asciiToHex [72] = ([72].map charHex).flatten ∧
    ((charHex 65).length = 2 ∧ (charHex 65).all isUpperHexCU = true ∧
      hexDecode (charHex 65) = [65]) ∧
    2 < (charHex 256).length :=
  ⟨claim6_ascii_hex_amended.1 [72],
   claim6_ascii_hex_amended.2.1 65 (by decide),
   claim6_ascii_hex_amended.2.2 256 (by decide)⟩

/-- Counterexample to claim C9 as stated: an EMPTY binary payload on an
open link is not rejected with `MissingPayload`; the handler accepts the
empty buffer and reports zero bytes written. -/
theorem claim9_empty_binary_counterexample :
    writeBinaryEP 2097152 (.buf []) true true true = (.ok 0, [[]]) := by
  decide

/-- Claim C9 (corrected): `write-binary` passes its payload through
unchanged and reports its length; an ABSENT payload (no parsed buffer)
fails with `missing binary body`, an oversized payload is rejected by
the body parser with HTTP 413, but an empty buffer is accepted with
zero bytes rather than failing with `MissingPayload`. -/
theorem claim9_binary_passthrough_amended :
    (∀ (lim : Nat) (lOpen wOk dOk : Bool),
        writeBinaryEP lim .absent lOpen wOk dOk = (.err 400 "missing binary body", [])) ∧
    (∀ (lim : Nat) (bs : List Nat) (lOpen wOk dOk : Bool), lim < bs.length →
        writeBinaryEP lim (.buf bs) lOpen wOk dOk =
          (.err 413 "request entity too large", [])) ∧
    (∀ (lim : Nat) (bs : List Nat), bs.length ≤ lim →
        writeBinaryEP lim (.buf bs) true true true = (.ok bs.length, [bs])) := by
  refine ⟨?_, ?_, ?_⟩
  · intro lim lo w d
    simp [writeBinaryEP]
  · intro lim bs lo w d hl
    simp [writeBinaryEP, hl]
  · intro lim bs hl
    simp only [writeBinaryEP]
    rw [if_neg (by omega)]
    simp [writeFlow]

/-- Witness for C9 (amended) at an absent body, a two-byte payload over
a limit of one, and the payload `1B 40` under the default limit. -/
theorem claim9_binary_passthrough_amended_witness :
    writeBinaryEP 2097152 .absent true true true = (.err 400 "missing binary body", []) ∧
    writeBinaryEP 1 (.buf [27, 64]) true true true =
      (.err 413 "request entity too large", []) ∧
    writeBinaryEP 2097152 (.buf [27, 64]) true true true = (.ok 2, [[27, 64]]) :=
  ⟨claim9_binary_passthrough_amended.1 2097152 true true true,
   claim9_binary_passthrough_amended.2.1 1 [27, 64] true true true (by decide),
   claim9_binary_passthrough_amended.2.2 2097152 [27, 64] (by decide)⟩

/-- Counterexample to claim C2 as stated: on a fresh closed link whose
handle acquisition fails, `/open` answers the success body
`{ ok: true, opened: false, path, baud }` — HTTP 200, no `LinkOpenFailed`
error, no cause (the response type carries none); the failure is only
logged inside `tryOpen`. -/
theorem claim2_open_failure_counterexample :
    (openEndpoint ⟨ofStr "/dev/ttyUSB0", 9600⟩ initB
        (some (ofStr "/dev/ttyUSB0")) none false).resp =
      ⟨true, false, ofStr "/dev/ttyUSB0", 9600⟩ := by
  decide

/-- Claim C2 (corrected): when handle acquisition fails on a link that is
neither opening nor open, the link does transition back to closed
(`port = null`, `opening = false`), but the caller receives a
success-shaped response with `ok = true` and `opened = false`; the
underlying cause is not surfaced. -/
theorem claim2_open_failure_amended (cfg : Config) (s : BState) (path : Option JSStr)
    (baud : Option Nat) (hg : (s.opening || (s.portPresent && s.portOpen)) = false) :
    (openEndpoint cfg s path baud false).state.portPresent = false ∧
    (openEndpoint cfg s path baud false).state.portOpen = false ∧
    (openEndpoint cfg s path baud false).state.opening = false ∧
    (openEndpoint cfg s path baud false).resp.ok = true ∧
    (openEndpoint cfg s path baud false).resp.opened = false := by
  simp [openEndpoint, tryOpenF, step, hg]

/-- Witness for C2 (amended) at the initial closed state. -/
theorem claim2_open_failure_amended_witness :
    (openEndpoint ⟨ofStr "/dev/ttyUSB0", 9600⟩ initB
        (some (ofStr "/dev/ttyACM0")) (some 19200) false).state.portPresent = false ∧
    (openEndpoint ⟨ofStr "/dev/ttyUSB0", 9600⟩ initB
        (some (ofStr "/dev/ttyACM0")) (some 19200) false).state.portOpen = false ∧
    (openEndpoint ⟨ofStr "/dev/ttyUSB0", 9600⟩ initB
        (some (ofStr "/dev/ttyACM0")) (some 19200) false).state.opening = false ∧
    (openEndpoint ⟨ofStr "/dev/ttyUSB0", 9600⟩ initB
        (some (ofStr "/dev/ttyACM0")) (some 19200) false).resp.ok = true ∧
    (openEndpoint ⟨ofStr "/dev/ttyUSB0", 9600⟩ initB
        (some (ofStr "/dev/ttyACM0")) (some 19200) false).resp.opened = false :=
  claim2_open_failure_amended ⟨ofStr "/dev/ttyUSB0", 9600⟩ initB
    (some (ofStr "/dev/ttyACM0")) (some 19200) (by decide)

/-- Counterexample to claim C3 as stated: with configured baud 9600 and a
request supplying baud 115200, the handle acquisition is attempted at
baud 9600 (the `SerialPort` constructor receives `BAUD`, never the
request's value), and the recorded baud after success is 9600, not the
supplied 115200. -/
theorem claim3_baud_counterexample :
    (openEndpoint ⟨ofStr "/dev/ttyUSB0", 9600⟩ initB
        (some (ofStr "/dev/ttyUSB0")) (some 115200) true).attempts =
      [(ofStr "/dev/ttyUSB0", 9600)] ∧
    (openEndpoint ⟨ofStr "/dev/ttyUSB0", 9600⟩ initB
        (some (ofStr "/dev/ttyUSB0")) (some 115200) true).state.portBaud = 9600 ∧
    (9600 : Nat) ≠ 115200 := by
  decide

/-- Claim C3 (corrected): on a link that is neither opening nor open,
`/open` attempts exactly one acquisition at the supplied path (default
`SERIAL_PATH` when absent or empty) but always at the CONFIGURED baud
rate; on success the path and the configured baud are recorded as
current; the request's baud (default `BAUD`) is merely echoed in the
response. -/
theorem claim3_open_path_baud_amended (cfg : Config) (s : BState) (path : Option JSStr)
    (baud : Option Nat) (osOk : Bool)
    (hg : (s.opening || (s.portPresent && s.portOpen)) = false) :
    (openEndpoint cfg s path baud osOk).attempts = [(resolvePath cfg path, cfg.baud)] ∧
    (osOk = true →
      (openEndpoint cfg s path baud osOk).state.portPath = resolvePath cfg path ∧
      (openEndpoint cfg s path baud osOk).state.portBaud = cfg.baud ∧
      (openEndpoint cfg s path baud osOk).state.portOpen = true) ∧
    (openEndpoint cfg s path baud osOk).resp.rpath = resolvePath cfg path ∧
    (openEndpoint cfg s path baud osOk).resp.rbaud = resolveBaud cfg baud := by
  cases osOk <;> simp [openEndpoint, tryOpenF, step, hg]

/-- Witness for C3 (amended) at the initial closed state with a
successful acquisition. -/
theorem claim3_open_path_baud_amended_witness :
    (openEndpoint ⟨ofStr "/dev/ttyUSB0", 9600⟩ initB
        (some (ofStr "COM4")) (some 115200) true).attempts =
      [(resolvePath ⟨ofStr "/dev/ttyUSB0", 9600⟩ (some (ofStr "COM4")), 9600)] ∧
    (true = true →
      (openEndpoint ⟨ofStr "/dev/ttyUSB0", 9600⟩ initB
          (some (ofStr "COM4")) (some 115200) true).state.portPath =
        resolvePath ⟨ofStr "/dev/ttyUSB0", 9600⟩ (some (ofStr "COM4")) ∧
      (openEndpoint ⟨ofStr "/dev/ttyUSB0", 9600⟩ initB
          (some (ofStr "COM4")) (some 115200) true).state.portBaud = 9600 ∧
      (openEndpoint ⟨ofStr "/dev/ttyUSB0", 9600⟩ initB
          (some (ofStr "COM4")) (some 115200) true).state.portOpen = true) ∧
    (openEndpoint ⟨ofStr "/dev/ttyUSB0", 9600⟩ initB
        (some (ofStr "COM4")) (some 115200) true).resp.rpath =
      resolvePath ⟨ofStr "/dev/ttyUSB0", 9600⟩ (some (ofStr "COM4")) ∧
    (openEndpoint ⟨ofStr "/dev/ttyUSB0", 9600⟩ initB
        (some (ofStr "COM4")) (some 115200) true).resp.rbaud =
      resolveBaud ⟨ofStr "/dev/ttyUSB0", 9600⟩ (some 115200) :=
  claim3_open_path_baud_amended ⟨ofStr "/dev/ttyUSB0", 9600⟩ initB
    (some (ofStr "COM4")) (some 115200) true (by decide)

/-- Claim C4 (confirmed): a call to `tryOpen` while the link is already
opening (in-progress flag set) or already open is a no-op — no handle
acquisition attempt is made and the state is returned unchanged — and
along every event trace from the initial state at most one OS handle is
held at any time. -/
theorem claim4_open_guard_and_single_handle (cfg : Config) :
    (∀ (s : BState) (p : JSStr) (osOk : Bool),
        (s.opening || (s.portPresent && s.portOpen)) = true →
        tryOpenF cfg s p osOk = (s, [])) ∧
    (∀ evs : List Ev, (runEvents cfg evs).handles ≤ 1) := by
  constructor
  · intro s p ok hg
    simp [tryOpenF, hg]
  · intro evs
    obtain ⟨h1, h2, h3, h4⟩ := invB_run cfg evs
    cases hpo : (runEvents cfg evs).portOpen with
    | false => rw [h1 hpo]; omega
    | true => rw [h2 hpo]

/-- Witness for C4: a state with the in-progress flag set is left
unchanged with no acquisition, and the trace `openBegin; openEnd ok`
ends with at most one handle. -/
theorem claim4_open_guard_and_single_handle_witness :
    tryOpenF ⟨ofStr "/dev/ttyUSB0", 9600⟩ ⟨true, true, false, ofStr "COM4", 9600, 0⟩
        (ofStr "COM4") true =
      (⟨true, true, false, ofStr "COM4", 9600, 0⟩, []) ∧
    (runEvents ⟨ofStr "/dev/ttyUSB0", 9600⟩
        [.openBegin (ofStr "COM4"), .openEnd true]).handles ≤ 1 :=
  ⟨(claim4_open_guard_and_single_handle ⟨ofStr "/dev/ttyUSB0", 9600⟩).1 _ _ true (by decide),
   (claim4_open_guard_and_single_handle ⟨ofStr "/dev/ttyUSB0", 9600⟩).2 _⟩

/-- Claim C7 (confirmed): `/print-voucher` with no request body on an
open link succeeds with `usedDefaults = true` and transmits a single
non-empty buffer that contains the bytes of the default station name
`My Station` and of the default voucher number `VC123456` (each having
passed through the uppercase-hex encode/decode pipeline). -/
theorem claim7_voucher_defaults (nd ni : JSStr) :
    ∃ n buf, printVoucherEP none nd ni true true true = (.ok n true, [buf]) ∧
      0 < n ∧ n = buf.length ∧
      ofStr "My Station" <:+: buf ∧ ofStr "VC123456" <:+: buf := by
  have hsplit : hexDecode (buildVoucherHex defStationR (defVoucherR nd ni)) =
      hexDecode headHex ++
        hexDecode (asciiToHex nd ++ (midHex ++ (asciiToHex (jsSlice ni 11 19) ++ tailHex))) := by
    rw [buildVoucherHex_default]
    exact hexDecode_append _ _ headHex_valid.1 headHex_valid.2
  refine ⟨_, _, printVoucherEP_none nd ni, ?_, rfl, ?_, ?_⟩
  · rw [hsplit, List.length_append]
    have := headHex_decoded.1
    omega
  · rw [hsplit]
    exact headHex_decoded.2.1.trans (List.prefix_append _ _).isInfix
  · rw [hsplit]
    exact headHex_decoded.2.2.trans (List.prefix_append _ _).isInfix

set_option maxRecDepth 200000 in
/-- Counterexample to claim C8 as stated: with `createAt = "short"` (too
short to reach index 11) the slice is empty, yet `/print-voucher` still
SUCCEEDS — there is no `InvalidField` failure; the time field is
silently truncated to nothing. -/
theorem claim8_short_createat_counterexample :
    jsSlice (ofStr "short") 11 19 = [] ∧
    (printVoucherEP (some { voucher := some { createAt := some (ofStr "short") } })
        (ofStr "Fri Sep 26 2025") (ofStr "2025-09-26T12:34:56.000Z")
        true true true).1.isOk = true := by
  constructor
  · decide
  · rfl

/-- Claim C8 (corrected): the receipt time is obtained by the fixed
character slice `[11, 19)` of the `createAt` field, and when that field
is shorter than 12 characters the slice silently yields the EMPTY
string — the operation still succeeds (with an empty time field) rather
than failing with `InvalidField`. -/
theorem claim8_time_slice_amended (nd ni ca : JSStr) (h : ca.length ≤ 11) :
    jsSlice ca 11 19 = [] ∧
    printVoucherEP (some { voucher := some { createAt := some ca } }) nd ni true true true =
      (.ok (hexDecode (headHex ++ (asciiToHex nd ++ (midHex ++ tailHex)))).length false,
       [hexDecode (headHex ++ (asciiToHex nd ++ (midHex ++ tailHex)))]) := by
  have hs : jsSlice ca 11 19 = [] := by
    simp [jsSlice, List.drop_eq_nil_of_le h]
  refine ⟨hs, ?_⟩
  have hb : printVoucherEP (some { voucher := some { createAt := some ca } }) nd ni
      true true true =
      (.ok (hexDecode (buildVoucherHex defStationR (defVoucherR nd ca))).length false,
       [hexDecode (buildVoucherHex defStationR (defVoucherR nd ca))]) := rfl
  rw [hb, buildVoucherHex_default nd ca, hs]
  simp [asciiToHex]

/-- Witness for C8 (amended) at `createAt = "short"`. -/
theorem claim8_time_slice_amended_witness :
    jsSlice (ofStr "short") 11 19 = [] ∧
    printVoucherEP (some { voucher := some { createAt := some (ofStr "short") } })
        (ofStr "Fri Sep 26 2025") (ofStr "iso") true true true =
      (.ok (hexDecode (headHex ++
              (asciiToHex (ofStr "Fri Sep 26 2025") ++ (midHex ++ tailHex)))).length false,
       [hexDecode (headHex ++
          (asciiToHex (ofStr "Fri Sep 26 2025") ++ (midHex ++ tailHex)))]) :=
  claim8_time_slice_amended (ofStr "Fri Sep 26 2025") (ofStr "iso") (ofStr "short") (by decide)

/-- Claim C10 (confirmed): in a successful `/print-voucher` response the
`usedDefaults` flag is true exactly when the request body is absent or
has no keys at all; a body with any key — for instance an empty
`station` object — yields `usedDefaults = false` even though the
transmitted buffer is identical to the all-defaults one. -/
theorem claim10_used_defaults_iff (nd ni : JSStr) :
    (∀ b : Option BodyB,
        (printVoucherEP b nd ni true true true).1.udFlag = some true ↔
          b = none ∨ keyCount (b.getD emptyBodyB) = 0) ∧
    (printVoucherEP (some { station := some emptyStationB }) nd ni true true true).1.udFlag =
      some false ∧
    (printVoucherEP (some { station := some emptyStationB }) nd ni true true true).2 =
      (printVoucherEP none nd ni true true true).2 := by
  refine ⟨?_, rfl, rfl⟩
  intro b
  cases b with
  | none => simp [printVoucherEP, PVResp.udFlag]
  | some o => simp [printVoucherEP, PVResp.udFlag]

/-- Witness for C10 at an absent body. -/
theorem claim10_used_defaults_iff_witness :
    (printVoucherEP none (ofStr "Fri Sep 26 2025") (ofStr "iso")
        true true true).1.udFlag = some true :=
  ((claim10_used_defaults_iff (ofStr "Fri Sep 26 2025") (ofStr "iso")).1 none).mpr
    (Or.inl rfl)

end PrinterBridge
